import Mathlib

set_option maxRecDepth 1000000

/-!
Verification of the zerolog→slog rewrite scripts of the
Azure/containerization-assist repository.

The scripts are regex-driven Python text rewriters.  We embed them
shallowly: text is `List Char`, and each Python `re` operation is run
through a small backtracking matcher (`mat`) whose alternative order
mirrors CPython's `re` (leftmost match position, preference order of
the pattern: greedy `*` tries the longer iteration first, lazy `*?`
the shorter, alternation tries the left branch first).  Every starred
subpattern of the scripts consumes at least one character per
iteration, so the progress guard in `mat` never cuts a behaviour that
CPython would explore.  `\w`, `\s` and `.` are interpreted over ASCII,
which covers every input considered here.
-/

namespace Zed

/-- Text is modelled as a list of characters. -/
abbrev Str := List Char

/-- The literal brace characters, written via code points. -/
def lbrace : Char := Char.ofNat 123

def rbrace : Char := Char.ofNat 125

/-- Coerce a Lean string literal to the character-list representation. -/
def chars (s : String) : Str := s.data

/-- Python `\s` (whitespace) over ASCII: space, tab, newline, CR, VT, FF. -/
def isPyWs (c : Char) : Bool :=
  c == ' ' || c == '\t' || c == '\n' || c == '\r' || c == Char.ofNat 11 || c == Char.ofNat 12

/-- Python `\w` over ASCII: letters, digits, underscore. -/
def isPyWord (c : Char) : Bool := c.isAlpha || c.isDigit || c == '_'

/-- Python `needle in hay` substring test. -/
def containsSub (needle : Str) : Str → Bool
  | [] => needle.isEmpty
  | c :: rest => needle.isPrefixOf (c :: rest) || containsSub needle rest

/-- Python `str.split(sep)` for a one-character separator. -/
def splitOnChar (sep : Char) : Str → List Str
  | [] => [[]]
  | c :: rest =>
    match splitOnChar sep rest with
    | [] => if c == sep then [[], []] else [[c]]
    | p :: ps => if c == sep then [] :: p :: ps else (c :: p) :: ps

/-- Python `sep.join(parts)`. -/
def joinSep (sep : Str) : List Str → Str
  | [] => []
  | [x] => x
  | x :: xs => x ++ sep ++ joinSep sep xs

/-- Python `str.rstrip()` (trailing whitespace removed). -/
def rstripWs (s : Str) : Str := (s.reverse.dropWhile isPyWs).reverse

/-- Python `str.strip()` (leading and trailing whitespace removed). -/
def stripWs (s : Str) : Str := (rstripWs s).dropWhile isPyWs

/-- Python `str.rstrip(c)` for a single character. -/
def rstripChar (c : Char) (s : Str) : Str := (s.reverse.dropWhile (· == c)).reverse

/-- Python `str.replace(f, t)`: left-to-right, non-overlapping, all
occurrences.  The fuel is the length of the remaining text; every step
consumes at least one character when `f` is nonempty (all uses here
have nonempty `f`). -/
def replaceAllAux (f t : Str) : Nat → Str → Str
  | 0, s => s
  | n + 1, s =>
    if f ≠ [] ∧ f.isPrefixOf s then t ++ replaceAllAux f t n (s.drop f.length)
    else
      match s with
      | [] => []
      | c :: rest => c :: replaceAllAux f t n rest

def replaceAll (s f t : Str) : Str := replaceAllAux f t s.length s

/-! ## A small backtracking regex engine

Just enough of Python `re` for the patterns in the scripts: character
classes, concatenation, alternation, greedy and lazy `*`, `?`, and
numbered capture groups. -/

/-- Regular expressions.  `star r true` is greedy `r*`, `star r false`
is lazy `r*?`; similarly for `opt`.  `grp i r` is capture group `i`. -/
inductive RE where
  | eps : RE
  | cls : (Char → Bool) → RE
  | cat : RE → RE → RE
  | alt : RE → RE → RE
  | star : RE → Bool → RE
  | opt : RE → Bool → RE
  | grp : Nat → RE → RE

/-- Captures: group index paired with captured text; the most recent
capture of a group is listed first. -/
abbrev Caps := List (Nat × Str)

def capSet (caps : Caps) (i : Nat) (v : Str) : Caps := (i, v) :: caps

/-- Group lookup; an unset group reads as the empty string, matching
the `match.group(n) or ''` idiom of the source. -/
def capGet (caps : Caps) (i : Nat) : Str :=
  match caps.find? (fun p => p.1 == i) with
  | some p => p.2
  | none => []

/-- The matcher, in continuation-passing style.  Alternatives are
explored in CPython preference order, and the first success wins.  The
fuel bounds pattern-structure descent plus loop unrollings; it is
decremented on every call, so recursion is structural. -/
def mat (fuel : Nat) (re : RE) (s : Str) (caps : Caps)
    (k : Str → Caps → Option (Str × Caps)) : Option (Str × Caps) :=
  match fuel with
  | 0 => none
  | fuel + 1 =>
    match re with
    | .eps => k s caps
    | .cls f =>
      match s with
      | [] => none
      | c :: rest => if f c then k rest caps else none
    | .cat a b => mat fuel a s caps (fun s2 caps2 => mat fuel b s2 caps2 k)
    | .alt a b =>
      match mat fuel a s caps k with
      | some r => some r
      | none => mat fuel b s caps k
    | .opt a g =>
      if g then
        match mat fuel a s caps k with
        | some r => some r
        | none => k s caps
      else
        match k s caps with
        | some r => some r
        | none => mat fuel a s caps k
    | .star a g =>
      if g then
        match mat fuel a s caps (fun s2 caps2 =>
            if s2.length < s.length then mat fuel (.star a g) s2 caps2 k else none) with
        | some r => some r
        | none => k s caps
      else
        match k s caps with
        | some r => some r
        | none =>
          mat fuel a s caps (fun s2 caps2 =>
            if s2.length < s.length then mat fuel (.star a g) s2 caps2 k else none)
    | .grp i a =>
      mat fuel a s caps (fun s2 caps2 =>
        k s2 (capSet caps2 i (s.take (s.length - s2.length))))

/-- Attempt a match anchored at the start of `s` (Python `re.match`).
Returns the length of the matched text and the captures. -/
def matchHere (fuel : Nat) (re : RE) (s : Str) : Option (Nat × Caps) :=
  match mat fuel re s [] (fun rest caps => some (rest, caps)) with
  | some (rest, caps) => some (s.length - rest.length, caps)
  | none => none

/-- Python `re.search`: the leftmost position admitting a match wins.
Returns (offset of the match, its length, captures). -/
def searchFrom (fuel : Nat) (re : RE) : Str → Option (Nat × Nat × Caps)
  | [] =>
    match matchHere fuel re [] with
    | some (n, caps) => some (0, n, caps)
    | none => none
  | c :: rest =>
    match matchHere fuel re (c :: rest) with
    | some (n, caps) => some (0, n, caps)
    | none =>
      match searchFrom fuel re rest with
      | some (i, n, caps) => some (i + 1, n, caps)
      | none => none

/-- Python `re.sub` with a replacement function of the matched text and
captures.  None of the patterns in the scripts can match the empty
string, so the zero-length guard is never taken on them. -/
def gsubAux (fuel : Nat) (re : RE) (f : Str → Caps → Str) : Nat → Str → Str
  | 0, s => s
  | n + 1, s =>
    match searchFrom fuel re s with
    | none => s
    | some (i, len, caps) =>
      if len == 0 then s
      else
        s.take i ++ f ((s.drop i).take len) caps ++ gsubAux fuel re f n (s.drop (i + len))

def gsub (fuel : Nat) (re : RE) (f : Str → Caps → Str) (s : Str) : Str :=
  gsubAux fuel re f (s.length + 1) s

/-- Python `re.findall`: non-overlapping matches left to right, each
reported through its captures. -/
def findAllAux (fuel : Nat) (re : RE) : Nat → Str → List Caps
  | 0, _ => []
  | n + 1, s =>
    match searchFrom fuel re s with
    | none => []
    | some (i, len, caps) =>
      if len == 0 then []
      else caps :: findAllAux fuel re n (s.drop (i + len))

def findAll (fuel : Nat) (re : RE) (s : Str) : List Caps :=
  findAllAux fuel re (s.length + 1) s

/-! Pattern-building helpers. -/

/-- Literal text. -/
def lit (s : String) : RE := s.data.foldr (fun c r => RE.cat (RE.cls (fun d => d == c)) r) RE.eps

def seqList : List RE → RE := fun rs => rs.foldr RE.cat RE.eps

/-- `r+` (greedy). -/
def plus (r : RE) : RE := RE.cat r (RE.star r true)

/-- `\s*` (greedy). -/
def wsStar : RE := RE.star (RE.cls isPyWs) true

/-- `\w+` (greedy). -/
def wordPlus : RE := plus (RE.cls isPyWord)

/-- `[^X]` classes. -/
def notChar (x : Char) : RE := RE.cls (fun c => c != x)

/-- `.` without DOTALL: any character but newline. -/
def dotNoNl : RE := RE.cls (fun c => c != '\n')

/-- Fuel ample for every concrete text considered in this file. -/
def FUEL : Nat := 20000

/-! ## Embedding of src/scripts/fix_messagef_simple.py -/

/-- Pattern 1 of `fix_messagef_in_file`:
`\.Messagef\("([^"]*?):\s*%w"\s*,\s*([a-zA-Z0-9_]+)\)`. -/
def mgfPat1 : RE := seqList [lit (".Messagef(\""), RE.grp 1 (RE.star (notChar '"') false),
  lit (":"), wsStar, lit ("%w\""), wsStar, lit (","), wsStar, RE.grp 2 wordPlus, lit (")")]

/-- Pattern 2: `\.Messagef\("([^"]*?)\s+%w"\s*,\s*([a-zA-Z0-9_]+)\)`. -/
def mgfPat2 : RE := seqList [lit (".Messagef(\""), RE.grp 1 (RE.star (notChar '"') false),
  plus (RE.cls isPyWs), lit ("%w\""), wsStar, lit (","), wsStar, RE.grp 2 wordPlus, lit (")")]

/-- Pattern 3: `\.Messagef\("([^"]*?)%w"\s*,\s*([a-zA-Z0-9_]+)\)`. -/
def mgfPat3 : RE := seqList [lit (".Messagef(\""), RE.grp 1 (RE.star (notChar '"') false),
  lit ("%w\""), wsStar, lit (","), wsStar, RE.grp 2 wordPlus, lit (")")]

/-- The shared replacement template `.Message("\1").Cause(\2)`. -/
def mgfTemplate (caps : Caps) : Str :=
  chars (".Message(\"") ++ capGet caps 1 ++ chars ("\").Cause(") ++ capGet caps 2 ++ chars (")")

/-- The per-line search `\.Messagef\("([^"]+)"\s*,(.+)\)` (line 43). -/
def mgfLinePat : RE := seqList [lit (".Messagef(\""), RE.grp 1 (plus (notChar '"')),
  lit ("\""), wsStar, lit (","), RE.grp 2 (plus dotNoNl), lit (")")]

/-- The verb counter `%[^%\s]` (line 49). -/
def verbPat : RE := seqList [lit ("%"), RE.cls (fun c => c != '%' && !(isPyWs c))]

/-- One step of the character loop of lines 65-74: brackets adjust the
depth, a comma at depth zero closes the current argument (the comma
itself is dropped), every other character is appended. -/
def split_args_step (st : List Str × Int × Str) (c : Char) : List Str × Int × Str :=
  let (parts, depth, cur) := st
  if c == '(' || c == lbrace || c == '[' then (parts, depth + 1, cur ++ [c])
  else if c == ')' || c == rbrace || c == ']' then (parts, depth - 1, cur ++ [c])
  else if c == ',' && depth == 0 then (parts ++ [stripWs cur], depth, [])
  else (parts, depth, cur ++ [c])

/-- The argument splitter of `fix_messagef_in_file` (lines 61-77):
depth-tracked comma split, each piece stripped; the tail piece is
appended when nonempty. -/
def split_args_loop (s : Str) : List Str :=
  let r := s.foldl split_args_step ([], (0 : Int), [])
  if r.2.2 ≠ [] then r.1 ++ [stripWs r.2.2] else r.1

/-- The body of the per-line loop of `fix_messagef_in_file`
(lines 40-105).  The import check of lines 93-95 is a `pass` in the
source (no effect) and is omitted. -/
def mgfProcessLine (line : Str) : Str :=
  if containsSub (chars ("Messagef")) line ∧ containsSub (chars ("%w")) line ∧
      ¬ containsSub (chars (".Cause(")) line then
    match searchFrom FUEL mgfLinePat line with
    | some (_, _, caps) =>
      let format_str := capGet caps 1
      let args_str := stripWs (capGet caps 2)
      let format_verbs := findAll FUEL verbPat format_str
      if containsSub (chars ("%w")) format_str ∧ format_verbs.length > 1 then
        let new_format :=
          replaceAll (replaceAll (replaceAll format_str (chars (": %w")) [])
            (chars (" %w")) []) (chars ("%w")) []
        let args_parts := split_args_loop args_str
        if args_parts.length ≥ format_verbs.length then
          let error_arg := rstripChar ')' (args_parts.getLastD [])
          let other_args := args_parts.dropLast
          if other_args ≠ [] then
            replaceAll line
              (chars (".Messagef(\"") ++ format_str ++ chars ("\", ") ++ args_str)
              (chars (".Message(fmt.Sprintf(\"") ++ new_format ++ chars ("\", ") ++
                joinSep (chars (", ")) other_args ++ chars (")).Cause(") ++ error_arg)
          else
            replaceAll line
              (chars (".Messagef(\"") ++ format_str ++ chars ("\", ") ++ args_str)
              (chars (".Message(\"") ++ new_format ++ chars ("\").Cause(") ++ error_arg)
        else line
      else line
    | none => line
  else line

/-- The content transformation of `fix_messagef_in_file` (lines 10-107):
the three simple substitutions, then the per-line loop. -/
def fix_messagef_content (content : Str) : Str :=
  let c1 := gsub FUEL mgfPat1 (fun _ caps => mgfTemplate caps) content
  let c2 := gsub FUEL mgfPat2 (fun _ caps => mgfTemplate caps) c1
  let c3 := gsub FUEL mgfPat3 (fun _ caps => mgfTemplate caps) c2
  joinSep (chars ("\n")) ((splitOnChar '\n' c3).map mgfProcessLine)

/-- The import-block search `import\s*\(([^)]+)\)` (line 113). -/
def importPat : RE := seqList [lit ("import"), wsStar, lit ("("),
  RE.grp 1 (plus (notChar ')')), lit (")")]

/-- Whole-file behaviour of `fix_messagef_in_file` (lines 7-127): the
content transformation, then, when the content changed, the fmt-import
insertion of lines 110-119; the Bool records whether the file was
written back. -/
def fix_messagef_in_file (content : Str) : Bool × Str :=
  let c := fix_messagef_content content
  if c ≠ content then
    let final :=
      if containsSub (chars ("fmt.Sprintf")) c ∧
          ¬ containsSub (chars ("import \"fmt\"")) c then
        match searchFrom FUEL importPat c with
        | some (i, len, caps) =>
          let matched := (c.drop i).take len
          let imports := capGet caps 1
          if ¬ containsSub (chars ("\"fmt\"")) imports then
            replaceAll c matched
              (chars ("import (") ++ rstripWs imports ++ chars ("\n\t\"fmt\"\n)"))
          else c
        | none => c
      else c
    (true, final)
  else (false, content)

/-! ## Embedding of src/convert_zerolog_to_slog.py -/

/-- `(Debug|Info|Warn|Error)`, in source order. -/
def convLevels : RE :=
  RE.alt (lit ("Debug")) (RE.alt (lit ("Info")) (RE.alt (lit ("Warn")) (lit ("Error"))))

/-- The chain pattern of line 11:
`(\s*)(\w+\.)?logger\.(Debug|Info|Warn|Error)\(\)((?:\s*\.\s*\w+\([^)]*\))*)\s*\.\s*Msg\("([^"]*)"\)`.
The MULTILINE and DOTALL flags are immaterial: the pattern contains no
anchor and no `.`. -/
def convMainPat : RE := seqList [
  RE.grp 1 wsStar,
  RE.opt (RE.grp 2 (seqList [wordPlus, lit (".")])) true,
  lit ("logger."),
  RE.grp 3 convLevels,
  lit ("()"),
  RE.grp 4 (RE.star (seqList [wsStar, lit ("."), wsStar, wordPlus, lit ("("),
    RE.star (notChar ')') true, lit (")")]) true),
  wsStar, lit ("."), wsStar, lit ("Msg(\""),
  RE.grp 5 (RE.star (notChar '"') true),
  lit ("\")")]

/-- The key-value extractor of line 21: `\.\s*(\w+)\(([^)]*)\)`. -/
def kvPat : RE := seqList [lit ("."), wsStar, RE.grp 1 wordPlus, lit ("("),
  RE.grp 2 (RE.star (notChar ')') true), lit (")")]

/-- The argument submatch used by the Str/Int/Bool/Interface/Any
branches: `re.match(r'"([^"]+)",\s*(.+)', value)` (lines 29/36/45/51).
`.` does not cross a newline (DOTALL is not set on this inner match). -/
def strMatchPat : RE := seqList [lit ("\""), RE.grp 1 (plus (notChar '"')),
  lit ("\","), wsStar, RE.grp 2 (plus dotNoNl)]

/-- Extraction rule shared by the Str/Int/Bool/Interface/Any branches:
on a submatch, emit `"key", value.strip()`; otherwise nothing. -/
def kvArg (value : Str) : Option Str :=
  match matchHere FUEL strMatchPat value with
  | some (_, caps) =>
    some (chars ("\"") ++ capGet caps 1 ++ chars ("\", ") ++ stripWs (capGet caps 2))
  | none => none

/-- `replace_match` (lines 13-62): extract the recognized key-value
pairs from the chain in source order and rebuild the flat call; when
fields are present each pair is placed on its own `indent`+tab
continuation line. -/
def replace_match (caps : Caps) : Str :=
  let indent := capGet caps 1
  let pre := capGet caps 2
  let level := capGet caps 3
  let chain := capGet caps 4
  let message := capGet caps 5
  let kv := findAll FUEL kvPat chain
  let args := kv.foldl (fun acc kcaps =>
    let method := capGet kcaps 1
    let value := capGet kcaps 2
    if method == chars ("Str") then
      match kvArg value with
      | some a => acc ++ [a]
      | none => acc
    else if method == chars ("Int") then
      match kvArg value with
      | some a => acc ++ [a]
      | none => acc
    else if method == chars ("Err") then
      acc ++ [chars ("\"error\", ") ++ value]
    else if method == chars ("Bool") then
      match kvArg value with
      | some a => acc ++ [a]
      | none => acc
    else if method == chars ("Interface") || method == chars ("Any") then
      match kvArg value with
      | some a => acc ++ [a]
      | none => acc
    else acc) []
  if args ≠ [] then
    let sep := chars (",\n") ++ indent ++ chars ("\t")
    indent ++ pre ++ chars ("logger.") ++ level ++ chars ("(\"") ++ message ++
      chars ("\"") ++ sep ++ joinSep sep args ++ chars (")")
  else
    indent ++ pre ++ chars ("logger.") ++ level ++ chars ("(\"") ++ message ++ chars ("\")")

/-- The fieldless pattern of line 68:
`(\s*)(\w+\.)?logger\.(Debug|Info|Warn|Error)\(\)\s*\.\s*Msg\("([^"]*)"\)`. -/
def convSimplePat : RE := seqList [
  RE.grp 1 wsStar,
  RE.opt (RE.grp 2 (seqList [wordPlus, lit (".")])) true,
  lit ("logger."),
  RE.grp 3 convLevels,
  lit ("()"),
  wsStar, lit ("."), wsStar, lit ("Msg(\""),
  RE.grp 4 (RE.star (notChar '"') true),
  lit ("\")")]

/-- `convert_zerolog_to_slog` (lines 6-71): the chain substitution,
then the fieldless substitution `\1\2logger.\3("\4")`. -/
def convert_zerolog_to_slog (content : Str) : Str :=
  let c1 := gsub FUEL convMainPat (fun _ caps => replace_match caps) content
  gsub FUEL convSimplePat (fun _ caps =>
    capGet caps 1 ++ capGet caps 2 ++ chars ("logger.") ++ capGet caps 3 ++
      chars ("(\"") ++ capGet caps 4 ++ chars ("\")")) c1

/-! ## Driver of src/convert_zerolog_to_slog.py (process_file, main) -/

/-- The filesystem seen by the driver: an association of paths to
contents. -/
abbrev FS := List (Str × Str)

def readFileFs (fs : FS) (p : Str) : Option Str :=
  (fs.find? (fun e => e.1 == p)).map (fun e => e.2)

def writeFileFs (fs : FS) (p : Str) (c : Str) : FS :=
  if fs.any (fun e => e.1 == p) then fs.map (fun e => if e.1 == p then (e.1, c) else e)
  else fs ++ [(p, c)]

/-- The write decision of `process_file` (lines 79-92): skip files
failing the quick substring guard; convert; write back exactly when
the converted content differs.  `some new` means the file is written
with `new`. -/
def process_file_write (content : Str) : Option Str :=
  if ¬ (containsSub (chars ("logger.")) content ∧ containsSub (chars (".Msg(")) content) then
    none
  else
    let nc := convert_zerolog_to_slog content
    if nc ≠ content then some nc else none

/-- `process_file` (lines 73-95) over the modelled filesystem; returns
the new filesystem, the lines printed, and the returned flag.  A read
failure is the caught exception of line 93; its Python rendering is
abstracted to the fixed text `file not found`. -/
def process_file (fs : FS) (p : Str) : FS × List Str × Bool :=
  match readFileFs fs p with
  | none => (fs, [chars ("Error processing ") ++ p ++ chars (": file not found")], false)
  | some content =>
    match process_file_write content with
    | some nc => (writeFileFs fs p nc, [chars ("Converted: ") ++ p], true)
    | none => (fs, [], false)

/-- `main` (lines 97-115): positional arguments are processed one by
one with no count line; otherwise the newline-separated list in
`zerolog_files.txt` is processed, empty entries skipped, and a final
count line is printed.  The script always falls off the end of `main`,
so the exit status (last component) is 0 on every path. -/
def mainDriver (argv : List Str) (fs : FS) : FS × List Str × Nat :=
  if argv ≠ [] then
    let r := argv.foldl (fun (acc : FS × List Str) p =>
      let (fs2, pr, _) := process_file acc.1 p
      (fs2, acc.2 ++ pr)) (fs, [])
    (r.1, r.2, 0)
  else
    match readFileFs fs (chars ("zerolog_files.txt")) with
    | some txt =>
      let files := splitOnChar '\n' (stripWs txt)
      let r := files.foldl (fun (acc : FS × List Str × Nat) p =>
        if p ≠ [] then
          let (fs2, pr, ok) := process_file acc.1 p
          (fs2, acc.2.1 ++ pr, if ok then acc.2.2 + 1 else acc.2.2)
        else acc) (fs, [], 0)
      (r.1, r.2.1 ++ [chars ("\nConverted ") ++ (Nat.repr r.2.2).data ++ chars (" files")], 0)
    | none => (fs, [chars ("No zerolog_files.txt found. Run find_zerolog_usage.sh first.")], 0)

/-! ## Embedding of src/fix_pipeline_logging.py -/

/-- `(Info|Debug|Warn|Error)`, in source order. -/
def pipeLevels : RE :=
  RE.alt (lit ("Info")) (RE.alt (lit ("Debug")) (RE.alt (lit ("Warn")) (lit ("Error"))))

/-- The chain pattern of line 14:
`(\w+\.logger\.(Info|Debug|Warn|Error))\(\)\s*\.((?:[\s\n]*\.?(?:Str|Int|Bool|Err|Dur)\([^)]+\))+)\s*\.(Msg|Msgf)\(([^)]+)\)`.
Note that the mandatory `\.` after `\(\)\s*` consumes the first
setter's dot, so group 3 starts at the setter name. -/
def pipeMainPat : RE := seqList [
  RE.grp 1 (seqList [wordPlus, lit (".logger."), RE.grp 2 pipeLevels]),
  lit ("()"), wsStar, lit ("."),
  RE.grp 3 (plus (seqList [wsStar, RE.opt (lit (".")) true,
    RE.alt (lit ("Str")) (RE.alt (lit ("Int")) (RE.alt (lit ("Bool"))
      (RE.alt (lit ("Err")) (lit ("Dur"))))),
    lit ("("), plus (notChar ')'), lit (")")])),
  wsStar, lit ("."),
  RE.grp 4 (RE.alt (lit ("Msg")) (lit ("Msgf"))),
  lit ("("), RE.grp 5 (plus (notChar ')')), lit (")")]

/-- `\.NAME\("([^"]+)",\s*([^)]+)\)` for a setter NAME (lines 25-42). -/
def pairPat (name : String) : RE := seqList [lit ("."), lit (name), lit ("(\""),
  RE.grp 1 (plus (notChar '"')), lit ("\","), wsStar, RE.grp 2 (plus (notChar ')')), lit (")")]

/-- `\.Err\(([^)]+)\)` (line 45). -/
def errPairPat : RE := seqList [lit (".Err("), RE.grp 1 (plus (notChar ')')), lit (")")]

/-- `replace_logging` (lines 16-54): the pairs are collected by setter
method — all Str matches first, then Int, Bool, Dur, and Err — not in
source order of the chain. -/
def replace_logging (caps : Caps) : Str :=
  let loggerPref := capGet caps 1
  let chain := capGet caps 3
  let message := capGet caps 5
  let mkPair := fun (k : Caps) => chars ("\"") ++ capGet k 1 ++ chars ("\", ") ++ capGet k 2
  let pairs :=
    (findAll FUEL (pairPat ("Str")) chain).map mkPair ++
    (findAll FUEL (pairPat ("Int")) chain).map mkPair ++
    (findAll FUEL (pairPat ("Bool")) chain).map mkPair ++
    (findAll FUEL (pairPat ("Dur")) chain).map mkPair ++
    (findAll FUEL errPairPat chain).map (fun k => chars ("\"error\", ") ++ capGet k 1)
  if pairs ≠ [] then
    loggerPref ++ chars ("(") ++ message ++ chars (", ") ++
      joinSep (chars (", ")) pairs ++ chars (")")
  else
    loggerPref ++ chars ("(") ++ message ++ chars (")")

/-- The chainless pattern of line 60:
`(\w+\.logger\.(Info|Debug|Warn|Error))\(\)\s*\.(Msg|Msgf)\(([^)]+)\)`. -/
def pipeSimplePat : RE := seqList [
  RE.grp 1 (seqList [wordPlus, lit (".logger."), RE.grp 2 pipeLevels]),
  lit ("()"), wsStar, lit ("."),
  RE.grp 3 (RE.alt (lit ("Msg")) (lit ("Msgf"))),
  lit ("("), RE.grp 4 (plus (notChar ')')), lit (")")]

/-- `fix_logging_style` (lines 10-63): the chain substitution, then
the chainless substitution `\1(\4)`. -/
def fix_logging_style (content : Str) : Str :=
  let c1 := gsub FUEL pipeMainPat (fun _ caps => replace_logging caps) content
  gsub FUEL pipeSimplePat (fun _ caps =>
    capGet caps 1 ++ chars ("(") ++ capGet caps 4 ++ chars (")")) c1

/-! ## Embedding of src/fix_security_test_logging.py -/

/-- The two constant substitutions of lines 12-19.  Both patterns are
escaped literals. -/
def fix_security_transform (content : Str) : Str :=
  let c1 := gsub FUEL (lit ("logger := zerolog.Nop()"))
    (fun _ _ => chars ("logger := slog.New(slog.NewTextHandler(os.Stdout, nil))")) content
  gsub FUEL (lit ("zerolog.New(os.Stdout)"))
    (fun _ _ => chars ("slog.New(slog.NewTextHandler(os.Stdout, nil))")) c1

/-- The whole script (lines 8-23): transform, then write back
unconditionally — there is no change check.  The Bool records that the
file is written. -/
def fix_security_run (content : Str) : Str × Bool := (fix_security_transform content, true)

/-! ## Concrete inputs used by the theorems -/

/-- A line holding two multi-verb `%w` `Messagef` calls. -/
def exMessagefTwice : Str :=
  chars ("a.Messagef(\"x %s: %w\", p, e); b.Messagef(\"y %s: %w\", q, e2)")

/-- Scenario 1 of the spec. -/
def exScenario1 : Str := chars ("logger.Info().Str(\"user\", u).Msg(\"login\")")

/-- What `convert_zerolog_to_slog` produces on Scenario 1. -/
def exScenario1Conv : Str := chars ("logger.Info(\"login\",\n\t\"user\", u)")

/-- Scenario 2 of the spec: a chain spanning three lines. -/
def exScenario2 : Str := chars ("logger.Error()\n  .Err(err)\n  .Msg(\"failed\")")

/-- Scenario 3 of the spec: a single error-wrap verb, identifier argument. -/
def exScenario3 : Str := chars ("b.Messagef(\"save failed: %w\", err)")

/-- Scenario 3 with a space separator instead of colon-space. -/
def exScenario3Sp : Str := chars ("b.Messagef(\"save failed %w\", err)")

/-- Scenario 3 with no separator before the verb. -/
def exScenario3Bare : Str := chars ("b.Messagef(\"save failed%w\", err)")

/-- A pipeline chain interleaving setter types: Int, then Bool, then Str. -/
def exPipelineChain : Str :=
  chars ("x.logger.Info().Int(\"z\", i).Bool(\"b\", t).Str(\"c\", w).Msg(\"m\")")

/-- A convert chain interleaving setter types: Int, then Str. -/
def exConvChain : Str := chars ("logger.Info().Int(\"a\", i).Str(\"b\", s).Msg(\"m\")")

/-- Argument text with a comma inside a string literal at depth zero. -/
def exSplitLiteral : Str := chars ("\"a,b\", err")

/-- Argument text with commas inside each kind of nested bracket. -/
def exSplitNested : Str := chars ("f(a,b), g\x7bx,y\x7d, h[i,j]")

/-- A single-verb statement whose sole argument is not a plain identifier. -/
def exCauseExpr : Str := chars ("b.Messagef(\"save failed: %w\", err.Unwrap())")

/-- Two verbs but a single positional argument. -/
def exVerbMismatch : Str := chars ("b.Messagef(\"a %s: %w\", err)")

/-- Two verbs, one non-identifier positional argument. -/
def exFewerArgs : Str := chars ("b.Messagef(\"a %s: %w\", x.Y())")

/-- Two verbs, three positional arguments. -/
def exMoreArgs : Str := chars ("b.Messagef(\"a %s: %w\", x, y, z)")

/-- A chain with the unrecognized setter Dur next to a recognized Str. -/
def exDurChain : Str := chars ("logger.Error().Dur(\"d\", t).Str(\"k\", v).Msg(\"m\")")

/-- A pipeline chain with a recognized setter and an unknown builder call. -/
def exUnknownSetter : Str := chars ("x.logger.Info().Str(\"a\", u).Foo(1).Msg(\"m\")")

/-- A chain with no fields at all. -/
def exNoFields : Str := chars ("logger.Error().Msg(\"failed\")")

/-- A Go file whose imports are a single-line import statement. -/
def exImportSingle : Str :=
  chars ("package p\nimport \"errors\"\nfunc f() \x7b\n\tb.Messagef(\"a %s: %w\", x, err)\n\x7d")

/-- A Go file with a parenthesized import block. -/
def exImportBlock : Str :=
  chars ("package p\nimport (\n\t\"errors\"\n)\nfunc f() \x7b\n\tb.Messagef(\"a %s: %w\", x, err)\n\x7d")

/-- Content containing none of the zerolog patterns. -/
def exPlain : Str := chars ("package x")

/-- The path used in the driver runs. -/
def exGoPath : Str := chars ("g.go")

/-- A filesystem for the positional-argument driver run. -/
def exArgsFs : FS := [(exGoPath, exScenario1)]

/-- A filesystem for the batch driver run: the side file lists a
missing path and a convertible file. -/
def exBatchFs : FS :=
  [(chars ("zerolog_files.txt"), chars ("missing.go\ng.go\n")), (exGoPath, exScenario1)]

/-! ## Theorems for the claims -/

/-- Claim C1, counterexample: the Messagef rewrite is not idempotent.
On a line carrying two multi-verb %w calls, the first run leaves a
rewritten form in which the single-verb anchored pattern matches
again, so a second run makes a further edit. -/
theorem C1_counterexample :
    fix_messagef_content (fix_messagef_content exMessagefTwice) ≠
      fix_messagef_content exMessagefTwice := by decide

/-- Claim C1, amended: convert_zerolog_to_slog is idempotent on the
scenario chains of the spec (Scenario 1 and the multi-line Scenario 2),
and the Messagef rewrite is idempotent on single-call statements such
as Scenario 3; idempotence fails in general for the Messagef rewrite. -/
theorem C1_amended :
    convert_zerolog_to_slog (convert_zerolog_to_slog exScenario1) =
        convert_zerolog_to_slog exScenario1 ∧
    convert_zerolog_to_slog (convert_zerolog_to_slog exScenario2) =
        convert_zerolog_to_slog exScenario2 ∧
    fix_messagef_content (fix_messagef_content exScenario3) =
        fix_messagef_content exScenario3 := by decide

/-- Claim C2, counterexample: for the matched chain with recognized
setters in source order Int, Bool, Str, the flat rewrite of
fix_pipeline_logging lists the Str pair before the Bool pair (and
drops the Int pair, whose dot was consumed by the outer pattern) — not
the source order. -/
theorem C2_counterexample :
    fix_logging_style exPipelineChain =
        chars ("x.logger.Info(\"m\", \"c\", w, \"b\", t)") ∧
    fix_logging_style exPipelineChain ≠
        chars ("x.logger.Info(\"m\", \"z\", i, \"b\", t, \"c\", w)") := by decide

/-- Claim C2, amended: convert_zerolog_to_slog preserves source order
of the extracted pairs, while replace_logging of fix_pipeline_logging
groups pairs by setter method (all Str, then Int, Bool, Dur, Err), so
interleaved setter types are reordered and the first, dotless setter
is dropped. -/
theorem C2_amended :
    convert_zerolog_to_slog exConvChain =
        chars ("logger.Info(\"m\",\n\t\"a\", i,\n\t\"b\", s)") ∧
    fix_logging_style exPipelineChain =
        chars ("x.logger.Info(\"m\", \"c\", w, \"b\", t)") := by decide

/-- Claim C3, counterexample: the argument splitter takes a comma
inside a string literal (at bracket depth zero) as a boundary — the
loop tracks the bracket depth only, not string literals. -/
theorem C3_counterexample :
    split_args_loop exSplitLiteral =
        [chars ("\"a"), chars ("b\""), chars ("err")] ∧
    split_args_loop exSplitLiteral ≠ [chars ("\"a,b\""), chars ("err")] := by decide

/-- Claim C3, amended: the split occurs only at commas where the
()/\x7b\x7d/[] nesting depth is zero — commas inside nested brackets
of any of the three kinds are protected — but string literals are not
tracked, so a depth-zero comma inside a literal does split. -/
theorem C3_amended :
    split_args_loop exSplitNested =
        [chars ("f(a,b)"), chars ("g\x7bx,y\x7d"), chars ("h[i,j]")] := by decide

/-- Claim C4, counterexample: fix_security_test_logging writes the
file back even when the transformed content is identical to the
input — there is no change check. -/
theorem C4_counterexample : fix_security_run exPlain = (exPlain, true) := by decide

/-- Claim C4, amended: the process_file driver of
convert_zerolog_to_slog writes the file back only when the converted
content differs from the original (fix_pipeline_logging and the
Messagef fixer check likewise), while fix_pipeline_logging_v2 and
fix_security_test_logging write unconditionally. -/
theorem C4_amended (c out : Str) (h : process_file_write c = some out) : out ≠ c := by
  unfold process_file_write at h
  split at h
  · exact absurd h (by simp)
  · dsimp only at h
    split at h
    next hne => cases h; exact hne
    next => exact absurd h (by simp)

/-- Witness for C4_amended at a concrete convertible file. -/
theorem C4_amended_witness :
    process_file_write exScenario1 = some exScenario1Conv ∧ exScenario1Conv ≠ exScenario1 :=
  ⟨by decide, C4_amended exScenario1 exScenario1Conv (by decide)⟩

/-- Claim C5, counterexample: a statement of the claimed form whose
sole positional argument is not a plain identifier is left unchanged —
no Message+Cause decomposition is produced. -/
theorem C5_counterexample :
    fix_messagef_content exCauseExpr = exCauseExpr ∧
    containsSub (chars (".Cause(")) (fix_messagef_content exCauseExpr) = false := by decide

/-- Claim C5, amended: the decomposition is produced when the sole
positional argument is a plain identifier, for each separator shape
(colon-space, space, none); a non-identifier argument expression
leaves the statement unchanged. -/
theorem C5_amended :
    fix_messagef_content exScenario3 = chars ("b.Message(\"save failed\").Cause(err)") ∧
    fix_messagef_content exScenario3Sp = chars ("b.Message(\"save failed\").Cause(err)") ∧
    fix_messagef_content exScenario3Bare = chars ("b.Message(\"save failed\").Cause(err)") := by decide

/-- Claim C6, counterexample: a statement with %w plus another verb
and a verb/argument count mismatch (two verbs, one argument) is
nevertheless rewritten: the anchored single-verb pattern fires on the
trailing identifier argument without any verb counting. -/
theorem C6_counterexample :
    fix_messagef_content exVerbMismatch = chars ("b.Message(\"a %s\").Cause(err)") ∧
    fix_messagef_content exVerbMismatch ≠ exVerbMismatch := by decide

/-- Claim C6, amended: the line-loop leaves a multi-verb %w statement
unchanged only when the positional arguments are fewer than the format
verbs; with at least as many arguments as verbs (even more) it
rewrites, taking the last argument as the cause. -/
theorem C6_amended :
    fix_messagef_content exFewerArgs = exFewerArgs ∧
    fix_messagef_content exMoreArgs =
        chars ("b.Message(fmt.Sprintf(\"a %s\", x, y)).Cause(z)") := by decide

/-- Claim C7, counterexample: a chain holding a recognized Str setter
and the unrecognized setter Dur is rewritten by
convert_zerolog_to_slog into output that no longer contains the
unrecognized call — it is silently deleted. -/
theorem C7_counterexample :
    containsSub (chars (".Dur(\"d\", t)")) exDurChain = true ∧
    containsSub (chars ("Dur")) (convert_zerolog_to_slog exDurChain) = false := by decide

/-- Claim C7, amended: convert_zerolog_to_slog rebuilds the chain from
recognized setters only, dropping unknown builder calls, while
fix_pipeline_logging passes such chains through by leaving the whole
statement unmatched and untouched. -/
theorem C7_amended :
    convert_zerolog_to_slog exDurChain = chars ("logger.Error(\"m\",\n\t\"k\", v)") ∧
    fix_logging_style exUnknownSetter = exUnknownSetter := by decide

/-- Claim C8, counterexample: the three-line Scenario 2 chain is not
rendered inline as the claim states. -/
theorem C8_counterexample :
    convert_zerolog_to_slog exScenario2 ≠
      chars ("logger.Error(\"failed\", \"error\", err)") := by decide

/-- Claim C8, amended: the multi-line chain is matched, but every
extracted pair is placed on its own indented continuation line
whenever at least one field is present; only field-less chains render
inline. -/
theorem C8_amended :
    convert_zerolog_to_slog exScenario2 =
        chars ("logger.Error(\"failed\",\n\t\"error\", err)") ∧
    convert_zerolog_to_slog exNoFields = chars ("logger.Error(\"failed\")") := by decide

/-- Claim C9, counterexample: invoked with a positional file argument,
the driver prints the per-file line but no final count line. -/
theorem C9_counterexample :
    (mainDriver [exGoPath] exArgsFs).2 = ([chars ("Converted: g.go")], 0) ∧
    ((mainDriver [exGoPath] exArgsFs).2.1).all
        (fun l => !(containsSub (chars (" files")) l)) = true := by decide

/-- Claim C9, amended: the count line appears only in the batch mode
reading zerolog_files.txt; there a per-file read error is printed and
the batch continues to the remaining files, ending with the count and
status 0. -/
theorem C9_amended :
    (mainDriver [] exBatchFs).2 =
      ([chars ("Error processing missing.go: file not found"),
        chars ("Converted: g.go"),
        chars ("\nConverted 1 files")], 0) := by decide

/-- Claim C10, counterexample: a rewritten file whose imports are a
single-line import statement is written back referencing fmt.Sprintf
while containing no parenthesized import block at all. -/
theorem C10_counterexample :
    (fix_messagef_in_file exImportSingle).1 = true ∧
    containsSub (chars ("fmt.Sprintf")) (fix_messagef_in_file exImportSingle).2 = true ∧
    containsSub (chars ("import (")) (fix_messagef_in_file exImportSingle).2 = false := by decide

/-- Claim C10, amended: when the file already has a parenthesized
block of imports lacking fmt, the rewrite appends the fmt entry to
that block before writing. -/
theorem C10_amended :
    fix_messagef_in_file exImportBlock =
      (true, chars ("package p\nimport (\n\t\"errors\"\n\t\"fmt\"\n)\nfunc f() \x7b\n\tb.Message(fmt.Sprintf(\"a %s\", x)).Cause(err)\n\x7d")) := by decide

end Zed
